import Mathlib

/-!
Verification of the player reconciliation engine (src/player_reconcile.py).

The engine compares a source roster feed with a snapshot of the player
store, producing update proposals for matched records, insert proposals
for unmatched ones, and accumulating warnings, errors and run statistics.

The shallow embedding below follows the Python source function by
function: string fields of a feed row are `Option String` (with `none`
standing for an absent value, i.e. Python `None`), the team and position
mappings are association lists, and the mutable reconciler state (the
statistics counters and the warning/error accumulators) is threaded
explicitly as a `Ctx` value.  Warning and error messages are modelled as
structured values carrying exactly the data the Python f-strings
interpolate, so that claims about which codes or fields a message names
are statable.
-/

namespace PlayerReconcile

/-- Python `str(x)` applied to an optional string: `None` prints as the
literal text `None`. -/
def pyStr : Option String → String
  | none => "None"
  | some s => s

/-- Python `.upper()`, modelled character by character so that concrete
inputs evaluate. -/
def pyUpper (s : String) : String := ⟨s.data.map Char.toUpper⟩

/-- Python `.strip()`: drop leading and trailing whitespace, modelled
character by character so that concrete inputs evaluate. -/
def pyStrip (s : String) : String :=
  ⟨((s.data.dropWhile Char.isWhitespace).reverse.dropWhile Char.isWhitespace).reverse⟩

/-- The normalisation applied to code fields:
`str(row.get(key, '')).strip().upper()`. -/
def normCode (o : Option String) : String := pyUpper (pyStrip (o.getD ""))

/-- The normalisation applied to plain string fields on the insert path:
`str(row.get(key, '')).strip()`. -/
def normStr (o : Option String) : String := pyStrip (o.getD "")

/-- Jersey-number cell of a feed row: the key can be missing (`None`),
present but NaN, or a number. -/
inductive JVal where
  | absent
  | nan
  | num (n : Int)
deriving DecidableEq, Repr

/-- Python truthiness of a jersey value: `None` and `0` are falsy,
`NaN` and every other number are truthy. -/
def JVal.truthy : JVal → Bool
  | .absent => false
  | .nan => true
  | .num n => n != 0

/-- `pd.isna` on a jersey value (`pd.isna(None)` is true). -/
def JVal.isna : JVal → Bool
  | .absent => true
  | .nan => true
  | .num _ => false

/-- One row of the source feed (`nfl_player` in the Python source).
Fields are optional: `none` models a missing/NaN cell. -/
structure SourceRecord where
  gsis_id : Option String
  first_name : Option String
  last_name : Option String
  display_name : Option String
  latest_team : Option String
  position : Option String
  jersey_number : JVal
deriving DecidableEq, Repr

/-- One row of the store snapshot (`db_player` in the Python source),
keyed by its GSIS identifier in the lookup dictionary. -/
structure DbPlayer where
  oid : Int
  realteamid : Int
  positionid : Int
  current_team : String
  current_position : String
deriving DecidableEq, Repr

/-- One entry of the `changes` dictionary: old/new identifier plus the
human-readable labels. -/
structure FieldChange where
  old : Int
  new : Int
  old_abbrev : String
  new_abbrev : String
deriving DecidableEq, Repr

/-- The `changes` dictionary of an update: at most one team entry
(`realteamid`) and one position entry (`positionid`). -/
structure Changes where
  realteamid : Option FieldChange
  positionid : Option FieldChange
deriving DecidableEq, Repr

/-- An update proposal returned by `_check_player_updates`. -/
structure UpdateProposal where
  oid : Int
  gsis : String
  name : String
  changes : Changes
deriving DecidableEq, Repr

/-- An insert proposal returned by `_prepare_player_insert`. -/
structure InsertProposal where
  gsis : String
  firstname : String
  lastname : String
  realteamid : Int
  positionid : Int
  jersey_number : JVal
  display_name : String
deriving DecidableEq, Repr

/-- A warning accumulated on the update path, carrying the data the
Python message interpolates: the unknown code, the GSIS id and the
display name. -/
inductive RunWarning where
  | unknownTeam (team : String) (gsis : String) (name : String)
  | unknownPosition (pos : String) (gsis : String) (name : String)
deriving DecidableEq, Repr

/-- An error accumulated on the insert path, carrying the data the
Python message interpolates. -/
inductive RunError where
  | missingFields (fields : List String) (name : String)
  | unknownTeam (team : String) (gsis : String)
  | unknownPosition (pos : String) (gsis : String)
deriving DecidableEq, Repr

/-- The `self.stats` counters. -/
structure Stats where
  team_updates : Nat
  position_updates : Nat
  new_players : Nat
  errors : Nat
  warnings : Nat
  unchanged : Nat
deriving DecidableEq, Repr

def Stats.init : Stats := ⟨0, 0, 0, 0, 0, 0⟩

/-- Sum of all six counters, used to count how many counter increments a
record caused. -/
def Stats.total (s : Stats) : Nat :=
  s.team_updates + s.position_updates + s.new_players + s.errors + s.warnings + s.unchanged

/-- The mutable reconciler state: counters plus the two accumulators
(`self.stats`, `self.errors`, `self.warnings`). -/
structure Ctx where
  stats : Stats
  errors : List RunError
  warnings : List RunWarning
deriving DecidableEq, Repr

def Ctx.init : Ctx := ⟨Stats.init, [], []⟩

def Ctx.addWarning (c : Ctx) (w : RunWarning) : Ctx :=
  { c with warnings := c.warnings ++ [w],
           stats := { c.stats with warnings := c.stats.warnings + 1 } }

def Ctx.addError (c : Ctx) (e : RunError) : Ctx :=
  { c with errors := c.errors ++ [e],
           stats := { c.stats with errors := c.stats.errors + 1 } }

def Ctx.incTeamUpdates (c : Ctx) : Ctx :=
  { c with stats := { c.stats with team_updates := c.stats.team_updates + 1 } }

def Ctx.incPositionUpdates (c : Ctx) : Ctx :=
  { c with stats := { c.stats with position_updates := c.stats.position_updates + 1 } }

def Ctx.incNewPlayers (c : Ctx) : Ctx :=
  { c with stats := { c.stats with new_players := c.stats.new_players + 1 } }

def Ctx.incUnchanged (c : Ctx) : Ctx :=
  { c with stats := { c.stats with unchanged := c.stats.unchanged + 1 } }

/-- `nfl_player.get('display_name')` as interpolated into warning
messages (prints `None` when absent). -/
def warnName (p : SourceRecord) : String := pyStr p.display_name

/-- The GSIS id as computed at the top of `_check_player_updates`:
`str(nfl_player.get('gsis_id')).strip()`. -/
def checkGsis (p : SourceRecord) : String := pyStrip (pyStr p.gsis_id)

/-- Team branch of `_check_player_updates` (lines 213-228): if the
normalised code is non-empty and mapped, a differing identifier yields a
field change and a `team_updates` increment; a non-empty unmapped code
yields a warning; an empty code does nothing. -/
def teamCheck (p : SourceRecord) (db : DbPlayer) (team_map : List (String × Int))
    (ctx : Ctx) : Option FieldChange × Ctx :=
  let nfl_team := normCode p.latest_team
  if nfl_team = "" then (none, ctx)
  else
    match team_map.lookup nfl_team with
    | some new_team_id =>
        if new_team_id ≠ db.realteamid then
          (some ⟨db.realteamid, new_team_id, db.current_team, nfl_team⟩, ctx.incTeamUpdates)
        else (none, ctx)
    | none => (none, ctx.addWarning (.unknownTeam nfl_team (checkGsis p) (warnName p)))

/-- Position branch of `_check_player_updates` (lines 230-247): only
entered with `full_reconcile`; otherwise mirrors the team branch with
`position_updates`. -/
def posCheck (full_reconcile : Bool) (p : SourceRecord) (db : DbPlayer)
    (pos_map : List (String × Int)) (ctx : Ctx) : Option FieldChange × Ctx :=
  if full_reconcile then
    let nfl_pos := normCode p.position
    if nfl_pos = "" then (none, ctx)
    else
      match pos_map.lookup nfl_pos with
      | some new_pos_id =>
          if new_pos_id ≠ db.positionid then
            (some ⟨db.positionid, new_pos_id, db.current_position, nfl_pos⟩, ctx.incPositionUpdates)
          else (none, ctx)
      | none => (none, ctx.addWarning (.unknownPosition nfl_pos (checkGsis p) (warnName p)))
  else (none, ctx)

/-- `_check_player_updates`: run the team branch, then the position
branch, and return a proposal exactly when the `changes` dictionary is
non-empty. -/
def check_player_updates (full_reconcile : Bool) (p : SourceRecord) (db : DbPlayer)
    (team_map pos_map : List (String × Int)) (ctx : Ctx) : Option UpdateProposal × Ctx :=
  let tc := teamCheck p db team_map ctx
  let pc := posCheck full_reconcile p db pos_map tc.2
  if tc.1.isSome ∨ pc.1.isSome then
    (some ⟨db.oid, checkGsis p,
           p.display_name.getD (pyStr p.first_name ++ " " ++ pyStr p.last_name),
           ⟨tc.1, pc.1⟩⟩, pc.2)
  else (none, pc.2)

/-- The `missing` list built by `_prepare_player_insert` (lines 274-285),
in source order. -/
def missingFieldsOf (p : SourceRecord) : List String :=
  (if normStr p.gsis_id = "" then ["gsis_id"] else []) ++
  (if normStr p.first_name = "" then ["first_name"] else []) ++
  (if normStr p.last_name = "" then ["last_name"] else []) ++
  (if normCode p.latest_team = "" then ["latest_team"] else []) ++
  (if normCode p.position = "" then ["position"] else [])

/-- Python truthiness of `dict.get`: `None` and `0` are falsy. -/
def optFalsy : Option Int → Bool
  | none => true
  | some v => v == 0

/-- `_prepare_player_insert` (lines 259-316): reject with one error when
any required field is blank (naming all of them), then when the team
code does not map, then when the position code does not map; otherwise
increment `new_players` and build the proposal. -/
def prepare_player_insert (p : SourceRecord) (team_map pos_map : List (String × Int))
    (ctx : Ctx) : Option InsertProposal × Ctx :=
  let gsis_id := normStr p.gsis_id
  let first_name := normStr p.first_name
  let last_name := normStr p.last_name
  let nfl_team := normCode p.latest_team
  let nfl_pos := normCode p.position
  let missing := missingFieldsOf p
  if missing ≠ [] then
    (none, ctx.addError (.missingFields missing (warnName p)))
  else
    let team_id := team_map.lookup nfl_team
    if optFalsy team_id then
      (none, ctx.addError (.unknownTeam nfl_team gsis_id))
    else
      let pos_id := pos_map.lookup nfl_pos
      if optFalsy pos_id then
        (none, ctx.addError (.unknownPosition nfl_pos gsis_id))
      else
        (some ⟨gsis_id, first_name, last_name, team_id.getD 0, pos_id.getD 0,
               p.jersey_number,
               p.display_name.getD (first_name ++ " " ++ last_name)⟩,
         ctx.incNewPlayers)

/-- The running state of `reconcile_players`: accumulators plus the
`updates` and `inserts` output lists. -/
structure RunState where
  ctx : Ctx
  updates : List UpdateProposal
  inserts : List InsertProposal
deriving DecidableEq, Repr

def RunState.init : RunState := ⟨Ctx.init, [], []⟩

/-- The skip test at the top of the loop of `reconcile_players`:
`pd.isna(gsis_id) or str(gsis_id).strip() == ''`. -/
def skipRecord (p : SourceRecord) : Bool :=
  match p.gsis_id with
  | none => true
  | some s => pyStrip s == ""

/-- Body of the loop of `reconcile_players` (lines 175-196) for one feed
row. -/
def processRecord (full_reconcile : Bool) (team_map pos_map : List (String × Int))
    (db_lookup : List (String × DbPlayer)) (st : RunState) (p : SourceRecord) : RunState :=
  if skipRecord p then st
  else
    match db_lookup.lookup (pyStrip (pyStr p.gsis_id)) with
    | some db =>
        match check_player_updates full_reconcile p db team_map pos_map st.ctx with
        | (some u, ctx) => { st with ctx := ctx, updates := st.updates ++ [u] }
        | (none, ctx) => { st with ctx := ctx.incUnchanged }
    | none =>
        match prepare_player_insert p team_map pos_map st.ctx with
        | (some i, ctx) => { st with ctx := ctx, inserts := st.inserts ++ [i] }
        | (none, ctx) => { st with ctx := ctx }

/-- `reconcile_players`: fold the loop body over the feed rows in input
order. -/
def reconcile_players (full_reconcile : Bool) (team_map pos_map : List (String × Int))
    (db_lookup : List (String × DbPlayer)) (nfl : List SourceRecord) : RunState :=
  nfl.foldl (processRecord full_reconcile team_map pos_map db_lookup) RunState.init

/-- The condition under which `generate_sql_script` (lines 389-391) adds
the JERSEYNUMBER column: `insert.get('jersey_number') and not
pd.isna(insert['jersey_number'])`. -/
def jerseyIncluded (i : InsertProposal) : Bool :=
  i.jersey_number.truthy && !(i.jersey_number.isna)

/-- The jersey number as rendered into the script (`str(int(...))`) when
included, `none` when the column is omitted. -/
def renderedJersey (i : InsertProposal) : Option Int :=
  if jerseyIncluded i then
    match i.jersey_number with
    | .num n => some n
    | _ => none
  else none

/-- The single-quote character, used by the SQL escaping model. -/
def sq : Char := Char.ofNat 39

/-- `_escape_sql` at character level: every embedded single quote is
doubled (`str(value).replace("'", "''")`). -/
def escape_sql : List Char → List Char
  | [] => []
  | c :: rest => if c = sq then sq :: sq :: escape_sql rest else c :: escape_sql rest

/-- Rendering of a string value into the script: the escaped body
wrapped in single quotes (`f"'{self._escape_sql(v)}'"`). -/
def renderSqlString (s : List Char) : List Char := sq :: (escape_sql s ++ [sq])

/-- Reading the body of a SQL string literal back: each doubled single
quote stands for one single quote. -/
def unescape_sql : List Char → List Char
  | [] => []
  | [c] => [c]
  | c₁ :: c₂ :: rest =>
      if c₁ = sq ∧ c₂ = sq then sq :: unescape_sql rest
      else c₁ :: unescape_sql (c₂ :: rest)

/-- Reading a rendered literal back: strip the wrapping quotes, then
undouble. -/
def readSqlString (l : List Char) : List Char := unescape_sql ((l.drop 1).dropLast)


/-! ### Helper definitions and lemmas -/

/-- The team entry of the `changes` dictionary of an optional proposal. -/
def teamOf : Option UpdateProposal → Option FieldChange
  | none => none
  | some u => u.changes.realteamid

/-- The position entry of the `changes` dictionary of an optional
proposal. -/
def posOf : Option UpdateProposal → Option FieldChange
  | none => none
  | some u => u.changes.positionid

/-- Recogniser for unknown-team warnings. -/
def isTeamWarning : RunWarning → Bool
  | .unknownTeam _ _ _ => true
  | .unknownPosition _ _ _ => false

/-- Every proposal the diff produces carries at least one field change;
`none` counts as vacuously fine. -/
def propOk : Option UpdateProposal → Bool
  | none => true
  | some u => u.changes.realteamid.isSome || u.changes.positionid.isSome

theorem total_addWarning (c : Ctx) (w : RunWarning) :
    (c.addWarning w).stats.total = c.stats.total + 1 := by
  simp [Ctx.addWarning, Stats.total]; omega

theorem total_addError (c : Ctx) (e : RunError) :
    (c.addError e).stats.total = c.stats.total + 1 := by
  simp [Ctx.addError, Stats.total]; omega

theorem total_incTeamUpdates (c : Ctx) :
    c.incTeamUpdates.stats.total = c.stats.total + 1 := by
  simp [Ctx.incTeamUpdates, Stats.total]; omega

theorem total_incPositionUpdates (c : Ctx) :
    c.incPositionUpdates.stats.total = c.stats.total + 1 := by
  simp [Ctx.incPositionUpdates, Stats.total]; omega

theorem total_incNewPlayers (c : Ctx) :
    c.incNewPlayers.stats.total = c.stats.total + 1 := by
  simp [Ctx.incNewPlayers, Stats.total]; omega

theorem total_incUnchanged (c : Ctx) :
    c.incUnchanged.stats.total = c.stats.total + 1 := by
  simp [Ctx.incUnchanged, Stats.total]; omega

/-- The team branch either does nothing, records a change and bumps
`team_updates`, or records an unknown-team warning. -/
theorem teamCheck_cases (p : SourceRecord) (db : DbPlayer) (tm : List (String × Int))
    (ctx : Ctx) :
    ((teamCheck p db tm ctx).1 = none ∧ (teamCheck p db tm ctx).2 = ctx) ∨
    ((teamCheck p db tm ctx).1.isSome = true ∧
      (teamCheck p db tm ctx).2 = ctx.incTeamUpdates) ∨
    ((teamCheck p db tm ctx).1 = none ∧
      (teamCheck p db tm ctx).2
        = ctx.addWarning (.unknownTeam (normCode p.latest_team) (checkGsis p) (warnName p))) := by
  simp only [teamCheck]
  split
  · exact Or.inl ⟨rfl, rfl⟩
  · split
    · split
      · exact Or.inr (Or.inl ⟨rfl, rfl⟩)
      · exact Or.inl ⟨rfl, rfl⟩
    · exact Or.inr (Or.inr ⟨rfl, rfl⟩)

/-- The position branch either does nothing, records a change and bumps
`position_updates`, or records an unknown-position warning. -/
theorem posCheck_cases (full : Bool) (p : SourceRecord) (db : DbPlayer)
    (pm : List (String × Int)) (ctx : Ctx) :
    ((posCheck full p db pm ctx).1 = none ∧ (posCheck full p db pm ctx).2 = ctx) ∨
    ((posCheck full p db pm ctx).1.isSome = true ∧
      (posCheck full p db pm ctx).2 = ctx.incPositionUpdates) ∨
    ((posCheck full p db pm ctx).1 = none ∧
      (posCheck full p db pm ctx).2
        = ctx.addWarning (.unknownPosition (normCode p.position) (checkGsis p) (warnName p))) := by
  simp only [posCheck]
  split
  · split
    · exact Or.inl ⟨rfl, rfl⟩
    · split
      · split
        · exact Or.inr (Or.inl ⟨rfl, rfl⟩)
        · exact Or.inl ⟨rfl, rfl⟩
      · exact Or.inr (Or.inr ⟨rfl, rfl⟩)
  · exact Or.inl ⟨rfl, rfl⟩

/-- `_check_player_updates` written with its two branches exposed. -/
theorem check_player_updates_spec (full : Bool) (p : SourceRecord) (db : DbPlayer)
    (tm pm : List (String × Int)) (ctx : Ctx) :
    check_player_updates full p db tm pm ctx =
      (if (teamCheck p db tm ctx).1.isSome
          ∨ (posCheck full p db pm (teamCheck p db tm ctx).2).1.isSome then
        (some ⟨db.oid, checkGsis p,
               p.display_name.getD (pyStr p.first_name ++ " " ++ pyStr p.last_name),
               ⟨(teamCheck p db tm ctx).1, (posCheck full p db pm (teamCheck p db tm ctx).2).1⟩⟩,
         (posCheck full p db pm (teamCheck p db tm ctx).2).2)
       else (none, (posCheck full p db pm (teamCheck p db tm ctx).2).2)) := rfl

theorem check_snd (full : Bool) (p : SourceRecord) (db : DbPlayer)
    (tm pm : List (String × Int)) (ctx : Ctx) :
    (check_player_updates full p db tm pm ctx).2
      = (posCheck full p db pm (teamCheck p db tm ctx).2).2 := by
  rw [check_player_updates_spec]
  split <;> rfl

theorem check_fst_team (full : Bool) (p : SourceRecord) (db : DbPlayer)
    (tm pm : List (String × Int)) (ctx : Ctx) :
    teamOf (check_player_updates full p db tm pm ctx).1 = (teamCheck p db tm ctx).1 := by
  rw [check_player_updates_spec]
  cases htc : (teamCheck p db tm ctx).1 <;>
    cases hpc : (posCheck full p db pm (teamCheck p db tm ctx).2).1 <;>
      simp [teamOf, htc, hpc]

theorem check_fst_pos (full : Bool) (p : SourceRecord) (db : DbPlayer)
    (tm pm : List (String × Int)) (ctx : Ctx) :
    posOf (check_player_updates full p db tm pm ctx).1
      = (posCheck full p db pm (teamCheck p db tm ctx).2).1 := by
  rw [check_player_updates_spec]
  cases htc : (teamCheck p db tm ctx).1 <;>
    cases hpc : (posCheck full p db pm (teamCheck p db tm ctx).2).1 <;>
      simp [posOf, htc, hpc]

theorem check_fst_isSome (full : Bool) (p : SourceRecord) (db : DbPlayer)
    (tm pm : List (String × Int)) (ctx : Ctx) :
    (check_player_updates full p db tm pm ctx).1.isSome
      = ((teamCheck p db tm ctx).1.isSome
          || (posCheck full p db pm (teamCheck p db tm ctx).2).1.isSome) := by
  rw [check_player_updates_spec]
  cases htc : (teamCheck p db tm ctx).1 <;>
    cases hpc : (posCheck full p db pm (teamCheck p db tm ctx).2).1 <;>
      simp [htc, hpc]

theorem check_propOk (full : Bool) (p : SourceRecord) (db : DbPlayer)
    (tm pm : List (String × Int)) (ctx : Ctx) :
    propOk (check_player_updates full p db tm pm ctx).1 = true := by
  rw [check_player_updates_spec]
  cases htc : (teamCheck p db tm ctx).1 <;>
    cases hpc : (posCheck full p db pm (teamCheck p db tm ctx).2).1 <;>
      simp [propOk, htc, hpc]

theorem teamCheck_errors (p : SourceRecord) (db : DbPlayer) (tm : List (String × Int))
    (ctx : Ctx) : (teamCheck p db tm ctx).2.errors = ctx.errors := by
  rcases teamCheck_cases p db tm ctx with ⟨-, h⟩ | ⟨-, h⟩ | ⟨-, h⟩ <;>
    rw [h] <;> rfl

theorem posCheck_errors (full : Bool) (p : SourceRecord) (db : DbPlayer)
    (pm : List (String × Int)) (ctx : Ctx) :
    (posCheck full p db pm ctx).2.errors = ctx.errors := by
  rcases posCheck_cases full p db pm ctx with ⟨-, h⟩ | ⟨-, h⟩ | ⟨-, h⟩ <;>
    rw [h] <;> rfl

theorem check_errors (full : Bool) (p : SourceRecord) (db : DbPlayer)
    (tm pm : List (String × Int)) (ctx : Ctx) :
    (check_player_updates full p db tm pm ctx).2.errors = ctx.errors := by
  rw [check_snd, posCheck_errors, teamCheck_errors]

theorem teamCheck_unchanged (p : SourceRecord) (db : DbPlayer) (tm : List (String × Int))
    (ctx : Ctx) : (teamCheck p db tm ctx).2.stats.unchanged = ctx.stats.unchanged := by
  rcases teamCheck_cases p db tm ctx with ⟨-, h⟩ | ⟨-, h⟩ | ⟨-, h⟩ <;>
    rw [h] <;> rfl

theorem posCheck_unchanged (full : Bool) (p : SourceRecord) (db : DbPlayer)
    (pm : List (String × Int)) (ctx : Ctx) :
    (posCheck full p db pm ctx).2.stats.unchanged = ctx.stats.unchanged := by
  rcases posCheck_cases full p db pm ctx with ⟨-, h⟩ | ⟨-, h⟩ | ⟨-, h⟩ <;>
    rw [h] <;> rfl

theorem check_unchanged (full : Bool) (p : SourceRecord) (db : DbPlayer)
    (tm pm : List (String × Int)) (ctx : Ctx) :
    (check_player_updates full p db tm pm ctx).2.stats.unchanged = ctx.stats.unchanged := by
  rw [check_snd, posCheck_unchanged, teamCheck_unchanged]


/-- The position branch never adds an unknown-team warning. -/
theorem posCheck_team_warning_count (full : Bool) (p : SourceRecord) (db : DbPlayer)
    (pm : List (String × Int)) (ctx : Ctx) :
    (posCheck full p db pm ctx).2.warnings.countP (fun w => isTeamWarning w)
      = ctx.warnings.countP (fun w => isTeamWarning w) := by
  rcases posCheck_cases full p db pm ctx with ⟨-, h⟩ | ⟨-, h⟩ | ⟨-, h⟩ <;> rw [h] <;>
    simp [Ctx.addWarning, Ctx.incPositionUpdates, List.countP_append, isTeamWarning]

theorem teamCheck_total (p : SourceRecord) (db : DbPlayer) (tm : List (String × Int))
    (ctx : Ctx) :
    (teamCheck p db tm ctx).2.stats.total = ctx.stats.total ∨
    (teamCheck p db tm ctx).2.stats.total = ctx.stats.total + 1 := by
  rcases teamCheck_cases p db tm ctx with ⟨-, h⟩ | ⟨-, h⟩ | ⟨-, h⟩ <;> rw [h]
  · exact Or.inl rfl
  · exact Or.inr (total_incTeamUpdates _)
  · exact Or.inr (total_addWarning _ _)

theorem posCheck_total (full : Bool) (p : SourceRecord) (db : DbPlayer)
    (pm : List (String × Int)) (ctx : Ctx) :
    (posCheck full p db pm ctx).2.stats.total = ctx.stats.total ∨
    (posCheck full p db pm ctx).2.stats.total = ctx.stats.total + 1 := by
  rcases posCheck_cases full p db pm ctx with ⟨-, h⟩ | ⟨-, h⟩ | ⟨-, h⟩ <;> rw [h]
  · exact Or.inl rfl
  · exact Or.inr (total_incPositionUpdates _)
  · exact Or.inr (total_addWarning _ _)

theorem check_total_bounds (full : Bool) (p : SourceRecord) (db : DbPlayer)
    (tm pm : List (String × Int)) (ctx : Ctx) :
    ctx.stats.total ≤ (check_player_updates full p db tm pm ctx).2.stats.total ∧
    (check_player_updates full p db tm pm ctx).2.stats.total ≤ ctx.stats.total + 2 := by
  rw [check_snd]
  rcases posCheck_total full p db pm (teamCheck p db tm ctx).2 with h1 | h1 <;>
    rcases teamCheck_total p db tm ctx with h2 | h2 <;> rw [h1, h2] <;> omega

/-- A produced proposal certifies that at least one counter was bumped. -/
theorem check_some_total (full : Bool) (p : SourceRecord) (db : DbPlayer)
    (tm pm : List (String × Int)) (ctx : Ctx)
    (h : (check_player_updates full p db tm pm ctx).1.isSome = true) :
    ctx.stats.total + 1 ≤ (check_player_updates full p db tm pm ctx).2.stats.total := by
  rw [check_fst_isSome] at h
  rw [check_snd]
  rw [Bool.or_eq_true] at h
  rcases h with h | h
  · rcases teamCheck_cases p db tm ctx with ⟨h1, h2⟩ | ⟨h1, h2⟩ | ⟨h1, h2⟩
    · rw [h1] at h; exact absurd h (by simp)
    · rcases posCheck_total full p db pm (teamCheck p db tm ctx).2 with h3 | h3 <;>
        rw [h3, h2, total_incTeamUpdates] <;> omega
    · rw [h1] at h; exact absurd h (by simp)
  · rcases posCheck_cases full p db pm (teamCheck p db tm ctx).2 with ⟨h1, h2⟩ | ⟨h1, h2⟩ | ⟨h1, h2⟩
    · rw [h1] at h; exact absurd h (by simp)
    · rw [h2, total_incPositionUpdates]
      rcases teamCheck_total p db tm ctx with h3 | h3 <;> rw [h3] <;> omega
    · rw [h1] at h; exact absurd h (by simp)

/-- A non-empty unmapped team code degrades to a warning. -/
theorem teamCheck_unknown (p : SourceRecord) (db : DbPlayer) (tm : List (String × Int))
    (ctx : Ctx) (h1 : normCode p.latest_team ≠ "")
    (h2 : tm.lookup (normCode p.latest_team) = none) :
    teamCheck p db tm ctx
      = (none, ctx.addWarning (.unknownTeam (normCode p.latest_team) (checkGsis p) (warnName p))) := by
  simp only [teamCheck]
  rw [if_neg h1, h2]

/-- A team code resolving to the stored identifier produces nothing. -/
theorem teamCheck_match (p : SourceRecord) (db : DbPlayer) (tm : List (String × Int))
    (ctx : Ctx) (h2 : tm.lookup (normCode p.latest_team) = some db.realteamid) :
    teamCheck p db tm ctx = (none, ctx) := by
  simp only [teamCheck]
  split
  · rfl
  · rw [h2]; simp

/-- Position checking is skipped entirely outside full-reconcile mode. -/
theorem posCheck_false (p : SourceRecord) (db : DbPlayer) (pm : List (String × Int))
    (ctx : Ctx) : posCheck false p db pm ctx = (none, ctx) := rfl

/-- In full mode, a position code resolving to the stored identifier
produces nothing. -/
theorem posCheck_true_match (p : SourceRecord) (db : DbPlayer) (pm : List (String × Int))
    (ctx : Ctx) (h2 : pm.lookup (normCode p.position) = some db.positionid) :
    posCheck true p db pm ctx = (none, ctx) := by
  simp only [posCheck]
  rw [if_pos trivial]
  split
  · rfl
  · rw [h2]; simp

/-- With every required field present and an unmapped team code, the
insert is rejected with the unknown-team error alone: the position code
is never looked up. -/
theorem prepare_unknown_team (p : SourceRecord) (tm pm : List (String × Int)) (ctx : Ctx)
    (h3 : missingFieldsOf p = []) (h4 : tm.lookup (normCode p.latest_team) = none) :
    prepare_player_insert p tm pm ctx
      = (none, ctx.addError (.unknownTeam (normCode p.latest_team) (normStr p.gsis_id))) := by
  simp only [prepare_player_insert, h3, h4]
  simp [optFalsy]

/-- With a required field missing, the insert is rejected with the
missing-fields error naming the computed list. -/
theorem prepare_missing (p : SourceRecord) (tm pm : List (String × Int)) (ctx : Ctx)
    (h : missingFieldsOf p ≠ []) :
    prepare_player_insert p tm pm ctx
      = (none, ctx.addError (.missingFields (missingFieldsOf p) (warnName p))) := by
  simp only [prepare_player_insert]
  rw [if_pos h]

/-- Every branch of `_prepare_player_insert` bumps exactly one counter. -/
theorem prepare_total (p : SourceRecord) (tm pm : List (String × Int)) (ctx : Ctx) :
    (prepare_player_insert p tm pm ctx).2.stats.total = ctx.stats.total + 1 := by
  simp only [prepare_player_insert]
  split
  · exact total_addError _ _
  · split
    · exact total_addError _ _
    · split
      · exact total_addError _ _
      · exact total_incNewPlayers _

/-- Whether and what `_prepare_player_insert` proposes does not depend on
the accumulator state. -/
theorem prepare_fst_ctx_irrel (p : SourceRecord) (tm pm : List (String × Int))
    (c c' : Ctx) :
    (prepare_player_insert p tm pm c).1 = (prepare_player_insert p tm pm c').1 := by
  simp only [prepare_player_insert]
  split
  · rfl
  · split
    · rfl
    · split
      · rfl
      · rfl

theorem reconcile_players_append (full : Bool) (tm pm : List (String × Int))
    (dbm : List (String × DbPlayer)) (xs ys : List SourceRecord) :
    reconcile_players full tm pm dbm (xs ++ ys)
      = ys.foldl (processRecord full tm pm dbm) (reconcile_players full tm pm dbm xs) := by
  simp [reconcile_players, List.foldl_append]

theorem mem_missing_gsis (p : SourceRecord) :
    "gsis_id" ∈ missingFieldsOf p ↔ normStr p.gsis_id = "" := by
  simp only [missingFieldsOf, List.mem_append]
  split_ifs <;> simp_all

theorem mem_missing_first (p : SourceRecord) :
    "first_name" ∈ missingFieldsOf p ↔ normStr p.first_name = "" := by
  simp only [missingFieldsOf, List.mem_append]
  split_ifs <;> simp_all

theorem mem_missing_last (p : SourceRecord) :
    "last_name" ∈ missingFieldsOf p ↔ normStr p.last_name = "" := by
  simp only [missingFieldsOf, List.mem_append]
  split_ifs <;> simp_all

theorem mem_missing_team (p : SourceRecord) :
    "latest_team" ∈ missingFieldsOf p ↔ normCode p.latest_team = "" := by
  simp only [missingFieldsOf, List.mem_append]
  split_ifs <;> simp_all

theorem mem_missing_position (p : SourceRecord) :
    "position" ∈ missingFieldsOf p ↔ normCode p.position = "" := by
  simp only [missingFieldsOf, List.mem_append]
  split_ifs <;> simp_all

theorem missing_ne_nil_of_any (p : SourceRecord)
    (h : normStr p.gsis_id = "" ∨ normStr p.first_name = "" ∨ normStr p.last_name = ""
        ∨ normCode p.latest_team = "" ∨ normCode p.position = "") :
    missingFieldsOf p ≠ [] := by
  rcases h with h | h | h | h | h
  · exact List.ne_nil_of_mem ((mem_missing_gsis p).mpr h)
  · exact List.ne_nil_of_mem ((mem_missing_first p).mpr h)
  · exact List.ne_nil_of_mem ((mem_missing_last p).mpr h)
  · exact List.ne_nil_of_mem ((mem_missing_team p).mpr h)
  · exact List.ne_nil_of_mem ((mem_missing_position p).mpr h)

/-! ### Concrete data for witnesses and counterexamples -/

def tmW : List (String × Int) := [("KC", 3), ("DEN", 5)]

def pmW : List (String × Int) := [("QB", 9), ("RB", 12)]

def dbJane : DbPlayer := ⟨1, 5, 9, "DEN", "QB"⟩

/-- A matched record whose codes resolve to the stored identifiers. -/
def pJane : SourceRecord :=
  ⟨some "00-1234", some "Jane", some "Doe", some "Jane Doe", some "DEN", some "QB", .absent⟩

/-- A matched record with an unmapped team code. -/
def pZZ : SourceRecord :=
  ⟨some "00-1234", some "Jane", some "Doe", some "Jane Doe", some "ZZ", some "QB", .absent⟩

/-- An unmatched record with a blank first name. -/
def pMissing : SourceRecord :=
  ⟨some "00-7777", none, some "Doe", some "X Doe", some "KC", some "QB", .absent⟩

/-- A valid unmatched record. -/
def pNew : SourceRecord :=
  ⟨some "00-9999", some "Bo", some "Li", some "Bo Li", some "KC", some "QB", .absent⟩

/-- An unmatched record with both codes unmapped. -/
def pBoth : SourceRecord :=
  ⟨some "00-8888", some "Al", some "Yu", some "Al Yu", some "ZZ", some "XX", .absent⟩

/-! ### C9: SQL escaping round-trip -/

theorem escape_sql_ne_nil (t : List Char) (c : Char) : escape_sql (c :: t) ≠ [] := by
  rw [escape_sql]
  split <;> simp

theorem unescape_cons_cons_sq (xs : List Char) :
    unescape_sql (sq :: sq :: xs) = sq :: unescape_sql xs := by
  simp [unescape_sql]

theorem unescape_cons_ne (c d : Char) (xs : List Char) (h : c ≠ sq) :
    unescape_sql (c :: d :: xs) = c :: unescape_sql (d :: xs) := by
  simp only [unescape_sql]
  rw [if_neg]
  exact fun hh => h hh.1

theorem unescape_escape (s : List Char) : unescape_sql (escape_sql s) = s := by
  induction s with
  | nil => rfl
  | cons c t ih =>
    by_cases hc : c = sq
    · subst hc
      rw [escape_sql, if_pos rfl, unescape_cons_cons_sq, ih]
    · rw [escape_sql, if_neg hc]
      cases ht : escape_sql t with
      | nil =>
        cases t with
        | nil => simp [unescape_sql, escape_sql]
        | cons d r => exact absurd ht (escape_sql_ne_nil r d)
      | cons d rest =>
        rw [unescape_cons_ne c d rest hc, ← ht, ih]

/-- C9: for every string value, rendering it into the insert script
(doubling embedded single quotes and wrapping the result in single
quotes) and then reading it back as a SQL string literal (undoubling
quotes) yields the original value. -/
theorem C9_sql_escaping_roundtrip (s : List Char) :
    readSqlString (renderSqlString s) = s := by
  simp only [readSqlString, renderSqlString, List.drop_succ_cons, List.drop_zero]
  rw [List.dropLast_concat, unescape_escape]

/-! ### C3: mode gating -/

/-- C3: with `full_reconcile = false` the diff never carries a position
field change, `position_updates` is untouched, and the position code is
never inspected: the whole result is invariant under replacing the
position field of the source record. -/
theorem C3_mode_gating (p : SourceRecord) (db : DbPlayer) (tm pm : List (String × Int))
    (ctx : Ctx) (q : Option String) :
    posOf (check_player_updates false p db tm pm ctx).1 = none ∧
    (check_player_updates false p db tm pm ctx).2.stats.position_updates
      = ctx.stats.position_updates ∧
    check_player_updates false { p with position := q } db tm pm ctx
      = check_player_updates false p db tm pm ctx := by
  refine ⟨?_, ?_, ?_⟩
  · rw [check_fst_pos, posCheck_false]
  · rw [check_snd, posCheck_false]
    rcases teamCheck_cases p db tm ctx with ⟨-, h⟩ | ⟨-, h⟩ | ⟨-, h⟩ <;> rw [h] <;> rfl
  · rfl

/-! ### C4: idempotence of diffing -/

/-- C4: when the source team code resolves to exactly the stored team
identifier, and (in full mode) the source position code resolves to
exactly the stored position identifier, the diff returns no proposal. -/
theorem C4_idempotent_diff (full : Bool) (p : SourceRecord) (db : DbPlayer)
    (tm pm : List (String × Int)) (ctx : Ctx)
    (h1 : normCode p.latest_team ≠ "")
    (h2 : tm.lookup (normCode p.latest_team) = some db.realteamid)
    (h3 : full = true → normCode p.position ≠ "")
    (h4 : full = true → pm.lookup (normCode p.position) = some db.positionid) :
    (check_player_updates full p db tm pm ctx).1 = none := by
  rw [check_player_updates_spec, teamCheck_match p db tm ctx h2]
  cases full with
  | false => rw [posCheck_false]; simp
  | true => rw [posCheck_true_match p db pm _ (h4 rfl)]; simp

theorem C4_witness :
    normCode pJane.latest_team ≠ "" ∧
    List.lookup (normCode pJane.latest_team) tmW = some dbJane.realteamid ∧
    List.lookup (normCode pJane.position) pmW = some dbJane.positionid ∧
    (check_player_updates true pJane dbJane tmW pmW Ctx.init).1 = none :=
  ⟨by decide, by decide, by decide,
   C4_idempotent_diff true pJane dbJane tmW pmW Ctx.init (by decide) (by decide)
     (fun _ => by decide) (fun _ => by decide)⟩

/-! ### C1: asymmetric unknown-code handling -/

/-- C1: a matched record with a non-empty team code absent from the team
mapping gets no team field change and exactly one unknown-team warning,
and never an error; an unmatched record with all required fields present
and the same kind of unmapped code gets no insert proposal and exactly
one error. -/
theorem C1_asymmetric_unknown_code (full : Bool) (p : SourceRecord) (db : DbPlayer)
    (tm pm : List (String × Int)) (ctx : Ctx)
    (q : SourceRecord) (tm2 pm2 : List (String × Int)) (ctx2 : Ctx)
    (h1 : normCode p.latest_team ≠ "")
    (h2 : tm.lookup (normCode p.latest_team) = none)
    (h3 : missingFieldsOf q = [])
    (h4 : tm2.lookup (normCode q.latest_team) = none) :
    teamOf (check_player_updates full p db tm pm ctx).1 = none ∧
    (check_player_updates full p db tm pm ctx).2.warnings.countP (fun w => isTeamWarning w)
      = ctx.warnings.countP (fun w => isTeamWarning w) + 1 ∧
    (check_player_updates full p db tm pm ctx).2.errors = ctx.errors ∧
    (prepare_player_insert q tm2 pm2 ctx2).1 = none ∧
    (prepare_player_insert q tm2 pm2 ctx2).2.errors
      = ctx2.errors ++ [.unknownTeam (normCode q.latest_team) (normStr q.gsis_id)] ∧
    (prepare_player_insert q tm2 pm2 ctx2).2.stats.errors = ctx2.stats.errors + 1 := by
  have hprep := prepare_unknown_team q tm2 pm2 ctx2 h3 h4
  refine ⟨?_, ?_, ?_, ?_, ?_, ?_⟩
  · rw [check_fst_team, teamCheck_unknown p db tm ctx h1 h2]
  · rw [check_snd, posCheck_team_warning_count, teamCheck_unknown p db tm ctx h1 h2]
    simp [Ctx.addWarning, List.countP_append, isTeamWarning]
  · exact check_errors full p db tm pm ctx
  · rw [hprep]
  · rw [hprep]; simp [Ctx.addError]
  · rw [hprep]; simp [Ctx.addError]

theorem C1_witness :
    normCode pZZ.latest_team ≠ "" ∧
    List.lookup (normCode pZZ.latest_team) tmW = none ∧
    missingFieldsOf pBoth = [] ∧
    List.lookup (normCode pBoth.latest_team) tmW = none ∧
    teamOf (check_player_updates false pZZ dbJane tmW pmW Ctx.init).1 = none ∧
    (prepare_player_insert pBoth tmW pmW Ctx.init).1 = none :=
  ⟨by decide, by decide, by decide, by decide,
   (C1_asymmetric_unknown_code false pZZ dbJane tmW pmW Ctx.init pBoth tmW pmW Ctx.init
      (by decide) (by decide) (by decide) (by decide)).1,
   (C1_asymmetric_unknown_code false pZZ dbJane tmW pmW Ctx.init pBoth tmW pmW Ctx.init
      (by decide) (by decide) (by decide) (by decide)).2.2.2.1⟩

/-! ### C2: complete and atomic insert validation -/

/-- C2: an unmatched record with any required field blank after trimming
yields no insert proposal and exactly one error-class rejection whose
missing-fields list names precisely the blank fields. -/
theorem C2_insert_validation (p : SourceRecord) (tm pm : List (String × Int)) (ctx : Ctx)
    (h : normStr p.gsis_id = "" ∨ normStr p.first_name = "" ∨ normStr p.last_name = ""
        ∨ normCode p.latest_team = "" ∨ normCode p.position = "") :
    (prepare_player_insert p tm pm ctx).1 = none ∧
    (prepare_player_insert p tm pm ctx).2.errors
      = ctx.errors ++ [.missingFields (missingFieldsOf p) (warnName p)] ∧
    (prepare_player_insert p tm pm ctx).2.stats.errors = ctx.stats.errors + 1 ∧
    ("gsis_id" ∈ missingFieldsOf p ↔ normStr p.gsis_id = "") ∧
    ("first_name" ∈ missingFieldsOf p ↔ normStr p.first_name = "") ∧
    ("last_name" ∈ missingFieldsOf p ↔ normStr p.last_name = "") ∧
    ("latest_team" ∈ missingFieldsOf p ↔ normCode p.latest_team = "") ∧
    ("position" ∈ missingFieldsOf p ↔ normCode p.position = "") := by
  have hp := prepare_missing p tm pm ctx (missing_ne_nil_of_any p h)
  exact ⟨by rw [hp], by rw [hp]; simp [Ctx.addError], by rw [hp]; simp [Ctx.addError],
         mem_missing_gsis p, mem_missing_first p, mem_missing_last p,
         mem_missing_team p, mem_missing_position p⟩

theorem C2_witness :
    normStr pMissing.first_name = "" ∧
    (prepare_player_insert pMissing tmW pmW Ctx.init).1 = none ∧
    (prepare_player_insert pMissing tmW pmW Ctx.init).2.errors
      = Ctx.init.errors ++ [.missingFields (missingFieldsOf pMissing) (warnName pMissing)] :=
  ⟨by decide,
   (C2_insert_validation pMissing tmW pmW Ctx.init (Or.inr (Or.inl (by decide)))).1,
   (C2_insert_validation pMissing tmW pmW Ctx.init (Or.inr (Or.inl (by decide)))).2.1⟩

/-! ### C10: an unknown team code shadows an unknown position code -/

/-- C10: an unmatched record with all required fields present but both
codes unmapped is rejected with exactly one error, and that error names
only the team code: the position lookup never happens once the team
lookup fails. -/
theorem C10_unknown_team_shadows_position (p : SourceRecord)
    (tm pm : List (String × Int)) (ctx : Ctx)
    (h3 : missingFieldsOf p = [])
    (h4 : tm.lookup (normCode p.latest_team) = none)
    (h5 : pm.lookup (normCode p.position) = none) :
    (prepare_player_insert p tm pm ctx).1 = none ∧
    (prepare_player_insert p tm pm ctx).2.errors
      = ctx.errors ++ [.unknownTeam (normCode p.latest_team) (normStr p.gsis_id)] ∧
    (prepare_player_insert p tm pm ctx).2.stats.errors = ctx.stats.errors + 1 := by
  have hp := prepare_unknown_team p tm pm ctx h3 h4
  exact ⟨by rw [hp], by rw [hp]; simp [Ctx.addError], by rw [hp]; simp [Ctx.addError]⟩

theorem C10_witness :
    missingFieldsOf pBoth = [] ∧
    List.lookup (normCode pBoth.latest_team) tmW = none ∧
    List.lookup (normCode pBoth.position) pmW = none ∧
    (prepare_player_insert pBoth tmW pmW Ctx.init).2.errors
      = Ctx.init.errors ++ [.unknownTeam (normCode pBoth.latest_team) (normStr pBoth.gsis_id)] :=
  ⟨by decide, by decide, by decide,
   (C10_unknown_team_shadows_position pBoth tmW pmW Ctx.init
      (by decide) (by decide) (by decide)).2.1⟩

/-! ### C5: non-empty change-set invariant -/

/-- C5: every proposal the diff returns carries at least one field
change, and a matched record producing zero field changes yields no
proposal and bumps the unchanged counter by one instead. -/
theorem C5_nonempty_change_set (full : Bool) (tm pm : List (String × Int))
    (dbm : List (String × DbPlayer)) (st : RunState) (p : SourceRecord) (db : DbPlayer)
    (hskip : skipRecord p = false)
    (hdb : dbm.lookup (pyStrip (pyStr p.gsis_id)) = some db) :
    propOk (check_player_updates full p db tm pm st.ctx).1 = true ∧
    ((check_player_updates full p db tm pm st.ctx).1 = none →
      (processRecord full tm pm dbm st p).updates = st.updates ∧
      (processRecord full tm pm dbm st p).ctx.stats.unchanged
        = st.ctx.stats.unchanged + 1) := by
  refine ⟨check_propOk full p db tm pm st.ctx, fun hnone => ?_⟩
  cases hc : check_player_updates full p db tm pm st.ctx with
  | mk r c =>
    rw [hc] at hnone
    simp only [Prod.fst] at hnone
    subst hnone
    have hcu : c.stats.unchanged = st.ctx.stats.unchanged := by
      have h := check_unchanged full p db tm pm st.ctx
      rw [hc] at h
      exact h
    constructor
    · simp [processRecord, hskip, hdb, hc]
    · simp [processRecord, hskip, hdb, hc, Ctx.incUnchanged, hcu]

theorem C5_witness :
    skipRecord pJane = false ∧
    List.lookup (pyStrip (pyStr pJane.gsis_id)) [("00-1234", dbJane)] = some dbJane ∧
    propOk (check_player_updates true pJane dbJane tmW pmW RunState.init.ctx).1 = true ∧
    (processRecord true tmW pmW [("00-1234", dbJane)] RunState.init pJane).ctx.stats.unchanged
      = RunState.init.ctx.stats.unchanged + 1 :=
  ⟨by decide, by decide,
   (C5_nonempty_change_set true tmW pmW [("00-1234", dbJane)] RunState.init pJane dbJane
      (by decide) (by decide)).1,
   ((C5_nonempty_change_set true tmW pmW [("00-1234", dbJane)] RunState.init pJane dbJane
      (by decide) (by decide)).2 (by decide)).2⟩

/-! ### C6: statistics discipline -/

/-- C6 counterexample: a single matched record with an unmapped team
code and no resulting change bumps two counters (`warnings` and
`unchanged`), so the counters are not collectively mutated exactly once
per classified record. -/
theorem C6_counterexample :
    (reconcile_players false tmW pmW [("00-1234", dbJane)] [pZZ]).ctx.stats.total = 2 := by
  decide

/-- C6 (amended): per classified (non-skipped) record, the counters are
collectively mutated at least once and at most three times, and exactly
once for an unmatched (insert-path) record. -/
theorem C6_amended_statistics (full : Bool) (tm pm : List (String × Int))
    (dbm : List (String × DbPlayer)) (st : RunState) (p : SourceRecord)
    (hskip : skipRecord p = false) :
    (st.ctx.stats.total + 1 ≤ (processRecord full tm pm dbm st p).ctx.stats.total ∧
     (processRecord full tm pm dbm st p).ctx.stats.total ≤ st.ctx.stats.total + 3) ∧
    (dbm.lookup (pyStrip (pyStr p.gsis_id)) = none →
      (processRecord full tm pm dbm st p).ctx.stats.total = st.ctx.stats.total + 1) := by
  cases hdb : List.lookup (pyStrip (pyStr p.gsis_id)) dbm with
  | none =>
    cases hp : prepare_player_insert p tm pm st.ctx with
    | mk r c =>
      have ht : c.stats.total = st.ctx.stats.total + 1 := by
        have h := prepare_total p tm pm st.ctx
        rw [hp] at h
        exact h
      cases r with
      | none =>
        have hres : (processRecord full tm pm dbm st p).ctx = c := by
          simp [processRecord, hskip, hdb, hp]
        rw [hres, ht]
        exact ⟨⟨le_refl _, by omega⟩, fun _ => rfl⟩
      | some i =>
        have hres : (processRecord full tm pm dbm st p).ctx = c := by
          simp [processRecord, hskip, hdb, hp]
        rw [hres, ht]
        exact ⟨⟨le_refl _, by omega⟩, fun _ => rfl⟩
  | some db =>
    cases hc : check_player_updates full p db tm pm st.ctx with
    | mk r c =>
      have hb : st.ctx.stats.total ≤ c.stats.total ∧ c.stats.total ≤ st.ctx.stats.total + 2 := by
        have h := check_total_bounds full p db tm pm st.ctx
        rw [hc] at h
        exact h
      cases r with
      | none =>
        have hres : (processRecord full tm pm dbm st p).ctx = c.incUnchanged := by
          simp [processRecord, hskip, hdb, hc]
        rw [hres, total_incUnchanged]
        refine ⟨⟨by omega, by omega⟩, fun hcontra => ?_⟩
        exact absurd hcontra (by simp)
      | some u =>
        have hsome : st.ctx.stats.total + 1 ≤ c.stats.total := by
          have h := check_some_total full p db tm pm st.ctx (by rw [hc]; rfl)
          rw [hc] at h
          exact h
        have hres : (processRecord full tm pm dbm st p).ctx = c := by
          simp [processRecord, hskip, hdb, hc]
        rw [hres]
        refine ⟨⟨by omega, by omega⟩, fun hcontra => ?_⟩
        exact absurd hcontra (by simp)

theorem C6_amended_witness :
    skipRecord pNew = false ∧
    (processRecord false tmW pmW [] RunState.init pNew).ctx.stats.total
      = RunState.init.ctx.stats.total + 1 :=
  ⟨by decide,
   (C6_amended_statistics false tmW pmW [] RunState.init pNew (by decide)).2 (by decide)⟩

/-! ### C7: jersey-number handling on insert -/

/-- A valid unmatched record wearing jersey number 0. -/
def pJersey0 : SourceRecord :=
  ⟨some "00-2222", some "Amy", some "Ng", some "Amy Ng", some "KC", some "QB", .num 0⟩

/-- A valid unmatched record wearing jersey number 7. -/
def pJersey7 : SourceRecord :=
  ⟨some "00-3333", some "Cy", some "Wu", some "Cy Wu", some "KC", some "QB", .num 7⟩

/-- C7: the proposal for a fully successful insert carries the raw
jersey value, but the rendered script omits the JERSEYNUMBER column for
jersey number 0 because the generation condition tests Python truthiness
rather than presence: a present numeric jersey number 0 is dropped,
while 7 is carried through. -/
theorem C7_jersey_zero_dropped :
    ((prepare_player_insert pJersey0 tmW pmW Ctx.init).1.map (fun i => i.jersey_number))
      = some (.num 0) ∧
    ((prepare_player_insert pJersey0 tmW pmW Ctx.init).1.map renderedJersey) = some none ∧
    ((prepare_player_insert pJersey7 tmW pmW Ctx.init).1.map renderedJersey)
      = some (some 7) := by
  decide

/-! ### C8: duplicate source identifiers -/

/-- The proposal produced for `pNew`. -/
def iNew : InsertProposal := ⟨"00-9999", "Bo", "Li", 3, 9, .absent, "Bo Li"⟩

/-- C8 counterexample: a duplicated valid unmatched record yields two
insert proposals, so a later duplicate occurrence does contribute an
additional proposal. -/
theorem C8_counterexample :
    (reconcile_players false tmW pmW [] [pNew, pNew]).inserts.length = 2 ∧
    (reconcile_players false tmW pmW [] [pNew]).inserts.length = 1 := by
  decide

/-- C8 (amended): the engine does not deduplicate source records; every
occurrence is processed independently, so an insertable record appended
after any prefix — including one already containing the same
external_id — contributes its own insert proposal. -/
theorem C8_amended_duplicates_not_deduplicated (full : Bool) (tm pm : List (String × Int))
    (dbm : List (String × DbPlayer)) (xs : List SourceRecord) (p : SourceRecord)
    (i : InsertProposal)
    (hskip : skipRecord p = false)
    (hdb : dbm.lookup (pyStrip (pyStr p.gsis_id)) = none)
    (hins : (prepare_player_insert p tm pm Ctx.init).1 = some i) :
    (reconcile_players full tm pm dbm (xs ++ [p])).inserts
      = (reconcile_players full tm pm dbm xs).inserts ++ [i] := by
  rw [reconcile_players_append]
  simp only [List.foldl_cons, List.foldl_nil]
  have h := prepare_fst_ctx_irrel p tm pm (reconcile_players full tm pm dbm xs).ctx Ctx.init
  rw [hins] at h
  cases hp : prepare_player_insert p tm pm (reconcile_players full tm pm dbm xs).ctx with
  | mk r c =>
    rw [hp] at h
    cases r with
    | none => simp at h
    | some j =>
      simp at h
      subst h
      simp [processRecord, hskip, hdb, hp]

theorem C8_amended_witness :
    skipRecord pNew = false ∧
    List.lookup (pyStrip (pyStr pNew.gsis_id)) ([] : List (String × DbPlayer)) = none ∧
    (prepare_player_insert pNew tmW pmW Ctx.init).1 = some iNew ∧
    (reconcile_players false tmW pmW [] ([pNew] ++ [pNew])).inserts
      = (reconcile_players false tmW pmW [] [pNew]).inserts ++ [iNew] :=
  ⟨by decide, by decide, by decide,
   C8_amended_duplicates_not_deduplicated false tmW pmW [] [pNew] pNew iNew
     (by decide) (by decide) (by decide)⟩

end PlayerReconcile
